import Mathlib

/-!
Shallow embedding of `src/bin/weewx/restful.py` (weewx APRS add-on).

The module defines an APRS uploader: configuration validation
(`APRSConfig.__post_init__` with `SerialConfig.validate_parity`), a pure
packet encoder (`format_weather_data` and its `_format_*` helpers), a post
gate (`_check_post_conditions`), and a TNC serial driver
(`_send_tnc_commands`, `postData`).

Embedding conventions:
- Python floats are modelled as exact rationals (`ℚ`).  At every concrete
  input used below the IEEE double computation and the exact rational
  computation truncate to the same integers.
- `int(x)` is truncation toward zero: `pyInt`.
- `"%0Nd" % n` string formatting is `pyFormatInt`.
- `str.upper()` is `pyUpper` (per-character ASCII uppercasing; the inputs
  involved are ASCII).
- External collaborators (the `weeutil.weeutil.latlon_string` position
  formatter, the `weewx.units` barometer conversion, the archive record
  fetch `extractRecordFrom`, the wall clock `time.time()`) are passed as
  explicit function/value parameters.
- The serial port and `time.sleep` are modelled by an event trace
  (`SerialEvent`); `TransportModel` says which serial operation, if any,
  raises `SerialException`.
- Python `raise` of a structured exception is `Except.error` carrying the
  constructed error value; `raise "some string"` (raising a non-exception,
  which Python 3 turns into an uninformative generic `TypeError`) is
  modelled by the distinguished constructor `PyError.stringRaise`.
-/

namespace WeewxAprs

/-- Python `int(q)` on a rational: truncation toward zero.  A `Rat` stores a
reduced `num/den` with positive denominator, so T-division of `num` by `den`
is exactly truncation toward zero. -/
def pyInt (q : ℚ) : ℤ := q.num.tdiv q.den

/-- Left-pad a string with zeroes to width `w` (no-op when already long
enough), as Python `%0Nd` does for the digit part. -/
def zeroPad (w : Nat) (s : String) : String :=
  if s.length < w then String.mk (List.replicate (w - s.length) '0') ++ s else s

/-- Python `"%0Nd" % n`: the minus sign counts toward the width, and a number
too wide for the field is printed in full. -/
def pyFormatInt (w : Nat) (n : ℤ) : String :=
  if n < 0 then "-" ++ zeroPad (w - 1) (toString n.natAbs) else zeroPad w (toString n.natAbs)

/-- Python `str.upper()` restricted to ASCII, which covers every string the
module uppercases (call signs and parity letters). -/
def pyUpper (s : String) : String := String.mk (s.data.map Char.toUpper)

/-- The `APRSStatus` enum of the source (line 24): outcomes of the post
gate.  `SUCCESS` is the eligible outcome. -/
inductive APRSStatus
  | DISABLED
  | STALE
  | INTERVAL_WAIT
  | NON_LATEST
  | INVALID_UNITS
  | SUCCESS
deriving DecidableEq, Repr

/-- The `APRSConfig` dataclass fields (source lines 33..50), after the
`__init__` coercions: numbers arrive as `ℚ`/`ℤ`, `enabled` as `Bool`. -/
structure APRSConfig where
  station : String
  latitude : ℚ
  longitude : ℚ
  hardware : String
  port : String
  baudrate : ℤ
  databits : ℤ
  parity : String
  stopbits : ℤ
  unproto : String
  status_message : String
  enabled : Bool
  interval : ℤ
  stale : ℤ
  max_tries : ℤ
deriving DecidableEq, Repr

/-- `SerialConfig.VALID_PARITIES` (source line 15). -/
def VALID_PARITIES : List String := ["N", "E", "O", "M", "S"]

/-- `SerialConfig.validate_parity` (source lines 17..22): uppercase the
parity, fail when it is not one of the five valid letters. -/
def validate_parity (parity : String) : Except String String :=
  let p := pyUpper parity
  if p ∈ VALID_PARITIES then Except.ok p
  else Except.error "Invalid parity value. Must be one of N, E, O, M, S"

/-- `APRSConfig.__post_init__` (source lines 52..66) as a fallible
constructor: uppercase the station, validate the parity, then check the
numeric ranges in source order.  A raised `ValueError` is `Except.error`
with the source's message. -/
def mkAPRSConfig (station : String) (latitude longitude : ℚ) (hardware port : String)
    (baudrate databits : ℤ) (parity : String) (stopbits : ℤ)
    (unproto status_message : String) (enabled : Bool)
    (interval stale max_tries : ℤ) : Except String APRSConfig :=
  match validate_parity parity with
  | Except.error e => Except.error e
  | Except.ok p =>
    if ¬(-90 ≤ latitude ∧ latitude ≤ 90) then
      Except.error "Latitude must be between -90 and 90 degrees"
    else if ¬(-180 ≤ longitude ∧ longitude ≤ 180) then
      Except.error "Longitude must be between -180 and 180 degrees"
    else if interval < 0 then
      Except.error "Interval cannot be negative"
    else if stale < 0 then
      Except.error "Stale threshold cannot be negative"
    else if max_tries < 1 then
      Except.error "Max tries must be at least 1"
    else Except.ok
      { station := pyUpper station, latitude, longitude, hardware, port, baudrate,
        databits, parity := p, stopbits, unproto, status_message, enabled,
        interval, stale, max_tries }

/-- An observation record (the mapping the archive returns): `dateTime` in
epoch seconds, the `usUnits` unit-system tag, and the optional numeric
fields the encoder reads. -/
structure Record where
  dateTime : Nat
  usUnits : ℤ
  windDir : Option ℚ
  windSpeed : Option ℚ
  windGust : Option ℚ
  outTemp : Option ℚ
  rain : Option ℚ
  rain24 : Option ℚ
  dailyrain : Option ℚ
  barometer : Option ℚ
  outHumidity : Option ℚ
  radiation : Option ℚ
deriving DecidableEq, Repr

/-- `weewx.US`, the US customary unit-system tag (value `0x01` in weewx). -/
def weewx_US : ℤ := 1

/-- Day of month of a UTC day count since 1970-01-01 (the standard
civil-from-days calendar algorithm), embedding the `%d` field of
`time.strftime` applied to `time.gmtime`. -/
def civilDayOfMonth (days : Nat) : Nat :=
  let doe := days + 719468
  let dayOfEra := doe % 146097
  let yoe := (dayOfEra - dayOfEra / 1460 + dayOfEra / 36524 - dayOfEra / 146096) / 365
  let doy := dayOfEra - (365 * yoe + yoe / 4 - yoe / 100)
  let mp := (5 * doy + 2) / 153
  doy - (153 * mp + 2) / 5 + 1

/-- `time.strftime("@%d%H%Mz", time.gmtime(t))` (source lines 133..134):
day of month, hour and minute in UTC, each zero-padded to two digits. -/
def strftime_dhm (t : Nat) : String :=
  "@" ++ zeroPad 2 (toString (civilDayOfMonth (t / 86400)))
      ++ zeroPad 2 (toString (t / 3600 % 24))
      ++ zeroPad 2 (toString (t / 60 % 60)) ++ "z"

/-- `APRS._format_wind_temp` (source lines 153..159): each of windDir,
windSpeed, windGust, outTemp as `int(val)` zero-padded to 3 digits, or the
placeholder `...` when absent. -/
def format_wind_temp (r : Record) : String :=
  let f : Option ℚ → String := fun v =>
    match v with
    | none => "..."
    | some q => pyFormatInt 3 (pyInt q)
  "_" ++ f r.windDir ++ "/" ++ f r.windSpeed ++ "g" ++ f r.windGust ++ "t" ++ f r.outTemp

/-- `APRS._format_rain` (source lines 161..167): each of rain, rain24,
dailyrain as `int(val * 100)` zero-padded to 3 digits, or `...` when
absent. -/
def format_rain (r : Record) : String :=
  let f : Option ℚ → String := fun v =>
    match v with
    | none => "..."
    | some q => pyFormatInt 3 (pyInt (q * 100))
  "r" ++ f r.rain ++ "p" ++ f r.rain24 ++ "P" ++ f r.dailyrain

/-- `APRS._format_barometer` (source lines 169..177).  The weewx unit
conversion to millibars is the external collaborator `convertToMbar`,
taking the record's unit-system tag and the raw value. -/
def format_barometer (convertToMbar : ℤ → ℚ → ℚ) (r : Record) : String :=
  match r.barometer with
  | none => "b....."
  | some b => "b" ++ pyFormatInt 5 (pyInt (convertToMbar r.usUnits b * 10))

/-- `APRS._format_humidity` (source lines 179..184): `h..` when absent,
`int(humidity)` zero-padded to 2 digits when `humidity < 100.0`, and `h00`
otherwise. -/
def format_humidity (r : Record) : String :=
  match r.outHumidity with
  | none => "h.."
  | some h => if h < 100 then "h" ++ pyFormatInt 2 (pyInt h) else "h00"

/-- `APRS._format_radiation` (source lines 186..195): empty when absent,
`L` plus 3 digits below 1000, `l` plus 3 digits of `value - 1000` below
2000, empty from 2000 on. -/
def format_radiation (r : Record) : String :=
  match r.radiation with
  | none => ""
  | some v =>
    if v < 1000 then "L" ++ pyFormatInt 3 (pyInt v)
    else if v < 2000 then "l" ++ pyFormatInt 3 (pyInt (v - 1000))
    else ""

/-- `APRS.format_weather_data` (source lines 131..151).  `latlon_string`
stands for the external `weeutil.weeutil.latlon_string` collaborator
(value, hemisphere letters, "lat"/"lon" selector). -/
def format_weather_data (cfg : APRSConfig)
    (latlon_string : ℚ → Char × Char → String → String)
    (convertToMbar : ℤ → ℚ → ℚ) (r : Record) : String :=
  let time_str := strftime_dhm r.dateTime
  let lat_str := latlon_string cfg.latitude ('N', 'S') "lat"
  let lon_str := latlon_string cfg.longitude ('E', 'W') "lon"
  let latlon_str := lat_str ++ lon_str
  let hardware_str := if cfg.hardware = "VantagePro" then ".DsVP" else ".Unkn"
  time_str ++ latlon_str ++ format_wind_temp r ++ format_rain r
    ++ format_barometer convertToMbar r ++ format_humidity r
    ++ format_radiation r ++ hardware_str

/-- `APRS._check_post_conditions` (source lines 93..109).  `lastGoodStamp`
is the archive collaborator's latest good timestamp, `now` the value of
`time.time()` (a float, hence `ℚ`), `lastpost` the mutable
`self._lastpost`.  The interval test is Python truthiness:
`if self._lastpost and ...` skips the rule when `_lastpost` is `None` or
`0`. -/
def check_post_conditions (cfg : APRSConfig) (lastpost : Option ℤ)
    (lastGoodStamp : ℤ) (now : ℚ) (time_ts : ℤ) : APRSStatus :=
  if ¬cfg.enabled then APRSStatus.DISABLED
  else if time_ts ≠ lastGoodStamp then APRSStatus.NON_LATEST
  else if now - (time_ts : ℚ) > (cfg.stale : ℚ) then APRSStatus.STALE
  else
    match lastpost with
    | some lp =>
      if lp ≠ 0 ∧ time_ts - lp < cfg.interval then APRSStatus.INTERVAL_WAIT
      else APRSStatus.SUCCESS
    | none => APRSStatus.SUCCESS

/-- Observable actions on the serial port, plus `time.sleep`. -/
inductive SerialEvent
  | flushOutput
  | flushInput
  | write (data : String)
  | sleep (seconds : Nat)
deriving DecidableEq, Repr

/-- The `commands` list of `APRS._send_tnc_commands` (source lines
113..121): seven `(payload, delay)` pairs. -/
def tnc_commands (cfg : APRSConfig) (packet : String) : List (String × Nat) :=
  [("\x03", 1),
   ("mycall " ++ cfg.station ++ "\r", 1),
   ("unproto " ++ cfg.unproto ++ "\r", 1),
   ("conv\r", 1),
   (packet ++ "\r", 1),
   (">" ++ cfg.status_message ++ "\r", 1),
   ("\x03", 0)]

/-- Behaviour of the serial transport during one attempt: whether opening
the port raises `SerialException`, and whether some write (indexed among
the seven TNC commands) raises `SerialException`. -/
structure TransportModel where
  openError : Option String
  failAt : Option (Fin 7 × String)
deriving DecidableEq, Repr

/-- The `SerialException` message raised by the `i`-th write, if any. -/
def write_fails (tm : TransportModel) (i : Nat) : Option String :=
  match tm.failAt with
  | some (j, m) => if j.val = i then some m else none
  | none => none

/-- The command loop of `APRS._send_tnc_commands` (source lines 124..127):
write each command, sleep when the delay is nonzero, stop at the first
failing write.  `i` is the index of the next command. -/
def run_commands (tm : TransportModel) : Nat → List (String × Nat) → Except String Unit × List SerialEvent
  | _, [] => (Except.ok (), [])
  | i, (c, d) :: rest =>
    match write_fails tm i with
    | some m => (Except.error m, [])
    | none =>
      let r := run_commands tm (i + 1) rest
      (r.1, SerialEvent.write c :: ((if d ≠ 0 then [SerialEvent.sleep d] else []) ++ r.2))

/-- The event trace of a command list none of whose writes fail. -/
def command_events : List (String × Nat) → List SerialEvent
  | [] => []
  | (c, d) :: rest =>
    SerialEvent.write c :: ((if d ≠ 0 then [SerialEvent.sleep d] else []) ++ command_events rest)

/-- `APRS._send_tnc_commands` (source lines 111..129): run the seven
commands; a `SerialException` is re-raised as
`APRSError("Failed to send TNC commands: ...")`. -/
def send_tnc_commands (tm : TransportModel) (cfg : APRSConfig) (packet : String) :
    Except String Unit × List SerialEvent :=
  let r := run_commands tm 0 (tnc_commands cfg packet)
  ((match r.1 with
    | Except.error m => Except.error ("Failed to send TNC commands: " ++ m)
    | Except.ok _ => Except.ok ()), r.2)

/-- Errors that escape `postData`.  `stringRaise` is Python `raise` applied
to a plain string (source lines 202 and 207), which Python 3 converts to a
generic `TypeError` that carries none of the string's content; `aprsError`
is a structured `APRSError`. -/
inductive PyError
  | stringRaise (msg : String)
  | aprsError (msg : String)
deriving DecidableEq, Repr

/-- `APRS.postData` (source lines 197..228), returning the outcome, the new
`self._lastpost`, and the serial event trace.  `extractRecordFrom` is the
archive record fetch; `lastGoodStamp`, `now` and `lastpost` are as in
`check_post_conditions`.  Failures inside the `with serial.Serial(...)`
block are wrapped per the source's handlers; on success `self._lastpost`
becomes `time_ts`. -/
def postData (cfg : APRSConfig) (tm : TransportModel)
    (latlon_string : ℚ → Char × Char → String → String)
    (convertToMbar : ℤ → ℚ → ℚ)
    (extractRecordFrom : ℤ → Record)
    (lastGoodStamp : ℤ) (now : ℚ) (lastpost : Option ℤ) (time_ts : ℤ) :
    Except PyError Unit × Option ℤ × List SerialEvent :=
  let status := check_post_conditions cfg lastpost lastGoodStamp now time_ts
  if status ≠ APRSStatus.SUCCESS then
    (Except.error (PyError.stringRaise "APRS: \x7bstatus.value\x7d"), lastpost, [])
  else
    let record := extractRecordFrom time_ts
    if record.usUnits ≠ weewx_US then
      (Except.error (PyError.stringRaise "APRS: Units must be US Customary."), lastpost, [])
    else
      let packet := format_weather_data cfg latlon_string convertToMbar record
      match tm.openError with
      | some m =>
        (Except.error (PyError.aprsError ("Serial communication error: " ++ m)), lastpost, [])
      | none =>
        let r := send_tnc_commands tm cfg packet
        let trace := SerialEvent.flushOutput :: SerialEvent.flushInput :: r.2
        match r.1 with
        | Except.error e =>
          (Except.error (PyError.aprsError ("Unexpected error during APRS upload: " ++ e)),
            lastpost, trace)
        | Except.ok _ => (Except.ok (), some time_ts, trace)

/-- Decidable equality for `Except`, used to evaluate `postData` outcomes on
concrete inputs. -/
instance {ε α : Type} [DecidableEq ε] [DecidableEq α] : DecidableEq (Except ε α) := fun a b =>
  match a, b with
  | Except.ok x, Except.ok y =>
    match decEq x y with
    | isTrue h => isTrue (by rw [h])
    | isFalse h => isFalse (fun hh => h (Except.ok.inj hh))
  | Except.error x, Except.error y =>
    match decEq x y with
    | isTrue h => isTrue (by rw [h])
    | isFalse h => isFalse (fun hh => h (Except.error.inj hh))
  | Except.ok _, Except.error _ => isFalse (fun hh => Except.noConfusion hh)
  | Except.error _, Except.ok _ => isFalse (fun hh => Except.noConfusion hh)

/-- The post gate exactly as claim C2 words it: rule 4 fires whenever the
last successful post timestamp is set (to any value) and the candidate is
within `interval` of it.  To be compared with `check_post_conditions`. -/
def gateSpecC2 (enabled : Bool) (candidate lastGood : ℤ) (now : ℚ)
    (staleTh interval : ℤ) (lastpost : Option ℤ) : APRSStatus :=
  if enabled = false then APRSStatus.DISABLED
  else if candidate ≠ lastGood then APRSStatus.NON_LATEST
  else if now - (candidate : ℚ) > (staleTh : ℚ) then APRSStatus.STALE
  else
    match lastpost with
    | some lp =>
      if candidate - lp < interval then APRSStatus.INTERVAL_WAIT
      else APRSStatus.SUCCESS
    | none => APRSStatus.SUCCESS

/-- Claim C2 amended as the code forces: rule 4 additionally requires the
last successful post timestamp to be nonzero (Python truthiness of
`self._lastpost`). -/
def gateSpecC2_amended (enabled : Bool) (candidate lastGood : ℤ) (now : ℚ)
    (staleTh interval : ℤ) (lastpost : Option ℤ) : APRSStatus :=
  if enabled = false then APRSStatus.DISABLED
  else if candidate ≠ lastGood then APRSStatus.NON_LATEST
  else if now - (candidate : ℚ) > (staleTh : ℚ) then APRSStatus.STALE
  else
    match lastpost with
    | some lp =>
      if lp ≠ 0 ∧ candidate - lp < interval then APRSStatus.INTERVAL_WAIT
      else APRSStatus.SUCCESS
    | none => APRSStatus.SUCCESS

/-- The claim C6 failure condition: some constructor constraint is
violated. -/
def badConfig (lat lon : ℚ) (parity : String) (interval stale max_tries : ℤ) : Prop :=
  pyUpper parity ∉ VALID_PARITIES
    ∨ ¬(-90 ≤ lat ∧ lat ≤ 90)
    ∨ ¬(-180 ≤ lon ∧ lon ≤ 180)
    ∨ interval < 0
    ∨ stale < 0
    ∨ max_tries < 1

/-- Test fixture: a position formatter collaborator returning the empty
string. -/
def latlon0 : ℚ → Char × Char → String → String := fun _ _ _ => ""

/-- Test fixture: a barometer conversion collaborator that is the
identity. -/
def conv0 : ℤ → ℚ → ℚ := fun _ v => v

/-- Test fixture: a transport on which every serial operation succeeds. -/
def tmOk : TransportModel := { openError := none, failAt := none }

/-- Test fixture: a transport whose third TNC write (index 2) raises
`SerialException`. -/
def tmWriteFail2 : TransportModel := { openError := none, failAt := some (2, "write timeout") }

/-- Test fixture: a valid configuration (VantagePro hardware, enabled, no
interval throttling, default staleness). -/
def cfg0 : APRSConfig :=
  { station := "W1AW", latitude := 41, longitude := -72, hardware := "VantagePro",
    port := "/dev/ttyS0", baudrate := 9600, databits := 8, parity := "N", stopbits := 1,
    unproto := "APRS VIA WIDE2-2", status_message := "WeeWX station", enabled := true,
    interval := 0, stale := 1800, max_tries := 3 }

/-- Test fixture: `cfg0` with the uploader disabled. -/
def cfgDisabled : APRSConfig := { cfg0 with enabled := false }

/-- Test fixture: `cfg0` with a 300-second interval throttle. -/
def cfgInterval : APRSConfig := { cfg0 with interval := 300 }

/-- Test fixture: the fully populated record of claim C1 —
`dateTime` is the epoch second of 2024-03-15T12:34:00Z, barometer value and
unit system left as parameters. -/
def recC1 (u : ℤ) (b : ℚ) : Record :=
  { dateTime := 1710506040, usUnits := u, windDir := some 180, windSpeed := some 5,
    windGust := some 9, outTemp := some 72, rain := some 0.05, rain24 := some 0.30,
    dailyrain := some 1.20, barometer := some b, outHumidity := some 55,
    radiation := some 450 }

/-- Test fixture: the C1 record in US units with barometer 29.92 inHg. -/
def recUS : Record := recC1 1 29.92

/-- Test fixture: an archive fetch returning the US-units record. -/
def extractUS : ℤ → Record := fun _ => recUS

/-- Test fixture: an archive fetch returning a record tagged with the
weewx METRIC unit system (`0x10`). -/
def extractMetric : ℤ → Record := fun _ => { recUS with usUnits := 16 }

/-- Test fixture: the US record with its radiation field replaced. -/
def recRad (v : Option ℚ) : Record := { recUS with radiation := v }

/-- Test fixture: the US record with its humidity field replaced. -/
def recHum (v : Option ℚ) : Record := { recUS with outHumidity := v }

/-- Python `int()` truncates toward zero: `pyInt` is the floor for
non-negative rationals and the ceiling for negative ones. -/
theorem pyInt_trunc (q : ℚ) : pyInt q = if q < 0 then ⌈q⌉ else ⌊q⌋ := by
  unfold pyInt
  split
  case isTrue h =>
    have hn : q.num < 0 := Rat.num_neg.mpr h
    have h1 : q.num.tdiv q.den = -((-q.num).tdiv q.den) := by
      rw [Int.neg_tdiv, neg_neg]
    rw [h1, Int.tdiv_eq_ediv (by omega) (Int.natCast_nonneg _)]
    have h2 : (⌈q⌉ : ℤ) = -⌊-q⌋ := by
      rw [← Int.ceil_neg, neg_neg]
    rw [h2, Rat.floor_def, Rat.neg_num, Rat.neg_den]
  case isFalse h =>
    have hn : 0 ≤ q.num := Rat.num_nonneg.mpr (le_of_not_lt h)
    rw [Int.tdiv_eq_ediv hn (Int.natCast_nonneg _), Rat.floor_def]

/-- Claim C7: the radiation block is `L` plus the zero-padded 3-digit value
below 1000, `l` plus the zero-padded 3-digit `value - 1000` from 1000 up to
(excluding) 2000, and empty (omitted) when the field is absent or the value
is at least 2000; in particular 999 ↦ `L999`, 1000 ↦ `l000`, 1999 ↦ `l999`,
2000 ↦ omitted. -/
theorem radiation_block_cases :
    (∀ r : Record, format_radiation r =
      (match r.radiation with
       | none => ""
       | some v =>
         if v < 1000 then "L" ++ pyFormatInt 3 (pyInt v)
         else if v < 2000 then "l" ++ pyFormatInt 3 (pyInt (v - 1000))
         else ""))
    ∧ format_radiation (recRad (some 999)) = "L999"
    ∧ format_radiation (recRad (some 1000)) = "l000"
    ∧ format_radiation (recRad (some 1999)) = "l999"
    ∧ format_radiation (recRad (some 2000)) = ""
    ∧ format_radiation (recRad none) = "" := by
  refine ⟨fun r => rfl, ?_, ?_, ?_, ?_, ?_⟩ <;> with_unfolding_all rfl

/-- Claim C8 as stated is false: a present humidity value other than 100
(namely 101) is not encoded as its zero-padded 2-digit value `h101`; the
code encodes every value of at least 100 as `h00`. -/
theorem humidity_over_100_counterexample :
    format_humidity (recHum (some 101)) = "h00"
    ∧ "h" ++ pyFormatInt 2 (pyInt (101 : ℚ)) = "h101"
    ∧ ("h00" : String) ≠ "h101" := by
  refine ⟨?_, ?_, ?_⟩ <;> with_unfolding_all decide

/-- Claim C8 amended: the humidity block is `h` plus the zero-padded
2-digit value when humidity is present and below 100, exactly `h00` when it
is 100 or more, and `h..` when absent; in particular 99 ↦ `h99` and
100 ↦ `h00`. -/
theorem humidity_block_cases :
    (∀ r : Record, format_humidity r =
      (match r.outHumidity with
       | none => "h.."
       | some v => if v < 100 then "h" ++ pyFormatInt 2 (pyInt v) else "h00"))
    ∧ format_humidity (recHum (some 99)) = "h99"
    ∧ format_humidity (recHum (some 100)) = "h00"
    ∧ format_humidity (recHum none) = "h.." := by
  refine ⟨fun r => rfl, ?_, ?_, ?_⟩ <;> with_unfolding_all rfl

/-- Claim C2 as stated is false: with the last successful post timestamp
set to 0, a candidate within the interval of it (100 - 0 < 300, all
earlier rules passing), the claimed rules give INTERVAL_WAIT but the code
returns SUCCESS, because `if self._lastpost and ...` treats 0 as unset. -/
theorem gate_interval_rule_counterexample :
    gateSpecC2 true 100 100 100 1800 300 (some 0) = APRSStatus.INTERVAL_WAIT
    ∧ check_post_conditions cfgInterval (some 0) 100 100 100 = APRSStatus.SUCCESS
    ∧ cfgInterval.enabled = true ∧ cfgInterval.stale = 1800 ∧ cfgInterval.interval = 300
    ∧ APRSStatus.SUCCESS ≠ APRSStatus.INTERVAL_WAIT := by
  refine ⟨?_, ?_, rfl, rfl, rfl, by decide⟩ <;> with_unfolding_all decide

/-- Claim C2 amended: the gate evaluates its rules in the claimed order and
returns the first matching outcome, with rule 4 reading "last successful
post timestamp set to a nonzero value and candidate − last < interval"; it
is a pure function of its inputs. -/
theorem gate_matches_amended_rules (cfg : APRSConfig) (lastpost : Option ℤ)
    (lastGood : ℤ) (now : ℚ) (t : ℤ) :
    check_post_conditions cfg lastpost lastGood now t =
      gateSpecC2_amended cfg.enabled t lastGood now cfg.stale cfg.interval lastpost := by
  unfold check_post_conditions gateSpecC2_amended
  cases h : cfg.enabled <;> simp [h]

/-- Claim C10: with the last successful post timestamp holding 0 (a set
value, but falsy in Python), the interval rule is skipped, so a candidate
within the interval of it is still ELIGIBLE when the earlier rules pass. -/
theorem zero_lastpost_skips_interval (cfg : APRSConfig) (lastGood : ℤ) (now : ℚ) (t : ℤ)
    (hE : cfg.enabled = true) (hL : t = lastGood)
    (hS : ¬(now - (t : ℚ) > (cfg.stale : ℚ))) (_hI : t - 0 < cfg.interval) :
    check_post_conditions cfg (some 0) lastGood now t = APRSStatus.SUCCESS := by
  unfold check_post_conditions
  subst hL
  rw [if_neg (by simp [hE]), if_neg (by simp), if_neg hS]
  simp

/-- Witness for claim C10 at candidate 100, interval 300. -/
theorem zero_lastpost_skips_interval_witness :
    check_post_conditions cfgInterval (some 0) 100 100 100 = APRSStatus.SUCCESS :=
  zero_lastpost_skips_interval cfgInterval 100 100 100 rfl rfl
    (by with_unfolding_all decide) (by decide)

/-- Claim C3 at a concrete failing input: a record tagged with the METRIC
unit system makes `postData` fail before any serial activity — no bytes
are written and the last successful post timestamp is unchanged — but the
failure is `raise` of a plain string (a generic Python 3 `TypeError`), not
a structured `UnitsError` value. -/
theorem non_us_units_plain_string_raise :
    (postData cfg0 tmOk latlon0 conv0 extractMetric 100 100 (some 42) 100).1 =
      Except.error (PyError.stringRaise "APRS: Units must be US Customary.")
    ∧ (postData cfg0 tmOk latlon0 conv0 extractMetric 100 100 (some 42) 100).2.1 = some 42
    ∧ (postData cfg0 tmOk latlon0 conv0 extractMetric 100 100 (some 42) 100).2.2 = []
    ∧ (extractMetric 100).usUnits ≠ weewx_US := by
  refine ⟨?_, ?_, ?_, ?_⟩ <;> with_unfolding_all decide

/-- Claim C4 at concrete failing inputs: two different gate rejections
(DISABLED and STALE) make `postData` raise the identical plain string
`"APRS: {status.value}"` — the source line lacks the `f` prefix, so the
status is not interpolated, and raising a plain string is a generic
Python 3 `TypeError`, not a distinguishable result value.  The rejection
itself has no side effects (no trace, last post timestamp unchanged). -/
theorem gate_rejection_indistinguishable_raise :
    (postData cfgDisabled tmOk latlon0 conv0 extractUS 100 100 (some 7) 100).1 =
      Except.error (PyError.stringRaise "APRS: \x7bstatus.value\x7d")
    ∧ (postData cfg0 tmOk latlon0 conv0 extractUS 100 5100 (some 7) 100).1 =
      Except.error (PyError.stringRaise "APRS: \x7bstatus.value\x7d")
    ∧ check_post_conditions cfgDisabled (some 7) 100 100 100 = APRSStatus.DISABLED
    ∧ check_post_conditions cfg0 (some 7) 100 5100 100 = APRSStatus.STALE
    ∧ (postData cfgDisabled tmOk latlon0 conv0 extractUS 100 100 (some 7) 100).2.1 = some 7
    ∧ (postData cfgDisabled tmOk latlon0 conv0 extractUS 100 100 (some 7) 100).2.2 = [] := by
  refine ⟨?_, ?_, ?_, ?_, ?_, ?_⟩ <;> with_unfolding_all decide

/-- Claim C1: on the fully populated record with the given concrete values
(dateTime = 1710506040, the epoch second of 2024-03-15T12:34:00Z), the
encoder emits the blocks in the fixed order timestamp, position,
wind/temperature, rain, barometer, humidity, radiation, hardware suffix,
with wind/temperature block `_180/005g009t072`, rain block `r005p030P120`,
humidity block `h55`, radiation block `L450`, timestamp `@151234z`; and
every integer conversion truncates toward zero (no rounding). -/
theorem encoder_concrete_record_blocks :
    (∀ (cfg : APRSConfig) (latlon : ℚ → Char × Char → String → String)
        (conv : ℤ → ℚ → ℚ) (u : ℤ) (b : ℚ),
      format_weather_data cfg latlon conv (recC1 u b) =
        strftime_dhm 1710506040
          ++ (latlon cfg.latitude ('N', 'S') "lat" ++ latlon cfg.longitude ('E', 'W') "lon")
          ++ "_180/005g009t072" ++ "r005p030P120"
          ++ format_barometer conv (recC1 u b) ++ "h55" ++ "L450"
          ++ (if cfg.hardware = "VantagePro" then ".DsVP" else ".Unkn"))
    ∧ strftime_dhm 1710506040 = "@151234z"
    ∧ (∀ q : ℚ, pyInt q = if q < 0 then ⌈q⌉ else ⌊q⌋) := by
  refine ⟨?_, by with_unfolding_all rfl, pyInt_trunc⟩
  intro cfg latlon conv u b
  have h1 : format_wind_temp (recC1 u b) = "_180/005g009t072" := by with_unfolding_all rfl
  have h2 : format_rain (recC1 u b) = "r005p030P120" := by with_unfolding_all rfl
  have h3 : format_humidity (recC1 u b) = "h55" := by with_unfolding_all rfl
  have h4 : format_radiation (recC1 u b) = "L450" := by with_unfolding_all rfl
  have h5 : (recC1 u b).dateTime = 1710506040 := rfl
  simp only [format_weather_data, h1, h2, h3, h4, h5]

/-- Claim C6: constructing the settings fails exactly when the parity
(case-insensitively) is not one of N/E/O/M/S, the latitude is outside
[-90, 90], the longitude is outside [-180, 180], the interval or stale
threshold is negative, or max_tries is below 1; on success the stored
station is the upper-cased input and the constructed object satisfies
every constraint. -/
theorem config_validation_characterization :
    ∀ (station : String) (lat lon : ℚ) (hardware port : String) (baudrate databits : ℤ)
      (parity : String) (stopbits : ℤ) (unproto status_message : String) (enabled : Bool)
      (interval stale max_tries : ℤ),
      ((∃ e, mkAPRSConfig station lat lon hardware port baudrate databits parity stopbits
          unproto status_message enabled interval stale max_tries = Except.error e)
        ↔ badConfig lat lon parity interval stale max_tries)
      ∧ (∀ cfg, mkAPRSConfig station lat lon hardware port baudrate databits parity stopbits
          unproto status_message enabled interval stale max_tries = Except.ok cfg →
          cfg.station = pyUpper station ∧ cfg.parity ∈ VALID_PARITIES
            ∧ -90 ≤ cfg.latitude ∧ cfg.latitude ≤ 90
            ∧ -180 ≤ cfg.longitude ∧ cfg.longitude ≤ 180
            ∧ 0 ≤ cfg.interval ∧ 0 ≤ cfg.stale ∧ 1 ≤ cfg.max_tries) := by
  intro station lat lon hardware port baudrate databits parity stopbits unproto
    status_message enabled interval stale max_tries
  unfold mkAPRSConfig validate_parity badConfig
  by_cases hp : pyUpper parity ∈ VALID_PARITIES
  · simp only [hp, if_true]
    split_ifs with h1 h2 h3 h4 h5 <;> simp_all [not_lt, le_of_not_lt]
  · simp [hp]

/-- Witness for claim C6: constructing from lower-case inputs succeeds with
call sign and parity upper-cased and every constraint satisfied. -/
theorem config_validation_witness :
    cfg0.station = pyUpper "w1aw" ∧ cfg0.parity ∈ VALID_PARITIES
      ∧ -90 ≤ cfg0.latitude ∧ cfg0.latitude ≤ 90
      ∧ -180 ≤ cfg0.longitude ∧ cfg0.longitude ≤ 180
      ∧ 0 ≤ cfg0.interval ∧ 0 ≤ cfg0.stale ∧ 1 ≤ cfg0.max_tries :=
  (config_validation_characterization "w1aw" 41 (-72) "VantagePro" "/dev/ttyS0" 9600 8 "n" 1
    "APRS VIA WIDE2-2" "WeeWX station" true 0 1800 3).2 cfg0 (by with_unfolding_all rfl)

/-- When no write fails, the command loop succeeds and its trace is the
writes interleaved with the nonzero delays, in order. -/
theorem run_commands_no_fail (tm : TransportModel) (h : tm.failAt = none) :
    ∀ (cmds : List (String × Nat)) (i : Nat),
      run_commands tm i cmds = (Except.ok (), command_events cmds) := by
  intro cmds
  induction cmds with
  | nil => intro i; rfl
  | cons hd tl ih =>
    intro i
    obtain ⟨c, d⟩ := hd
    simp [run_commands, write_fails, h, command_events, ih (i + 1)]

/-- When the write at index `j` fails and `j` lies in the command list run
from index `i`, the command loop returns that write's error. -/
theorem run_commands_first_fail (tm : TransportModel) (j : Fin 7) (m : String)
    (h : tm.failAt = some (j, m)) :
    ∀ (cmds : List (String × Nat)) (i : Nat), i ≤ j.val → j.val < i + cmds.length →
      (run_commands tm i cmds).1 = Except.error m := by
  intro cmds
  induction cmds with
  | nil => intro i h1 h2; simp at h2; omega
  | cons hd tl ih =>
    intro i h1 h2
    obtain ⟨c, d⟩ := hd
    by_cases hij : j.val = i
    · simp [run_commands, write_fails, h, hij]
    · have h1' : i + 1 ≤ j.val := by omega
      have h2' : j.val < (i + 1) + tl.length := by simp at h2; omega
      simp [run_commands, write_fails, h, hij, ih (i + 1) h1' h2']

/-- Claim C5: on an eligible, US-units post attempt, the last successful
post timestamp becomes the posted observation's timestamp exactly when the
port opens and all seven TNC command writes succeed; a serial failure at
the open or at any of the seven steps surfaces as a wrapped `APRSError`
and leaves the last successful post timestamp unchanged. -/
theorem lastpost_update_requires_full_tnc_success
    (cfg : APRSConfig) (tm : TransportModel)
    (latlon : ℚ → Char × Char → String → String) (conv : ℤ → ℚ → ℚ)
    (extract : ℤ → Record) (lastGood : ℤ) (now : ℚ) (lastpost : Option ℤ) (t : ℤ)
    (hGate : check_post_conditions cfg lastpost lastGood now t = APRSStatus.SUCCESS)
    (hUnits : (extract t).usUnits = weewx_US) :
    ((tm.openError = none → tm.failAt = none →
        (postData cfg tm latlon conv extract lastGood now lastpost t).1 = Except.ok ()
          ∧ (postData cfg tm latlon conv extract lastGood now lastpost t).2.1 = some t)
      ∧ (∀ (j : Fin 7) (m : String), tm.openError = none → tm.failAt = some (j, m) →
          (postData cfg tm latlon conv extract lastGood now lastpost t).1 =
            Except.error (PyError.aprsError
              ("Unexpected error during APRS upload: "
                ++ ("Failed to send TNC commands: " ++ m)))
            ∧ (postData cfg tm latlon conv extract lastGood now lastpost t).2.1 = lastpost)
      ∧ (∀ m, tm.openError = some m →
          (postData cfg tm latlon conv extract lastGood now lastpost t).1 =
            Except.error (PyError.aprsError ("Serial communication error: " ++ m))
            ∧ (postData cfg tm latlon conv extract lastGood now lastpost t).2.1 = lastpost)
      ∧ (tnc_commands cfg (format_weather_data cfg latlon conv (extract t))).length = 7) := by
  refine ⟨?_, ?_, ?_, rfl⟩
  · intro hOpen hFail
    simp [postData, hGate, hUnits, hOpen, send_tnc_commands,
      run_commands_no_fail tm hFail]
  · intro j m hOpen hFail
    have hrun : (run_commands tm 0
        (tnc_commands cfg (format_weather_data cfg latlon conv (extract t)))).1 =
        Except.error m := by
      refine run_commands_first_fail tm j m hFail _ 0 (by omega) ?_
      have hj := j.isLt
      simp only [tnc_commands, List.length_cons, List.length_nil]
      omega
    simp [postData, hGate, hUnits, hOpen, send_tnc_commands, hrun]
  · intro m hOpen
    simp [postData, hGate, hUnits, hOpen]

/-- Witness for claim C5: with a clean transport the last post timestamp
becomes the posted timestamp 100; with the third write failing it stays at
its prior value 42. -/
theorem lastpost_update_witness :
    (postData cfg0 tmOk latlon0 conv0 extractUS 100 100 (some 42) 100).2.1 = some 100
      ∧ (postData cfg0 tmWriteFail2 latlon0 conv0 extractUS 100 100 (some 42) 100).2.1 =
        some 42 := by
  constructor
  · exact ((lastpost_update_requires_full_tnc_success cfg0 tmOk latlon0 conv0 extractUS
      100 100 (some 42) 100 (by with_unfolding_all decide) (by with_unfolding_all decide)).1
      rfl rfl).2
  · exact ((lastpost_update_requires_full_tnc_success cfg0 tmWriteFail2 latlon0 conv0
      extractUS 100 100 (some 42) 100 (by with_unfolding_all decide)
      (by with_unfolding_all decide)).2.1 2 "write timeout" rfl rfl).2

/-- Claim C9: on an eligible, US-units attempt with a clean transport, the
serial trace is: flush output and input buffers, then exactly the seven
commands in order — raw control byte 0x03 then a 1-second wait, `mycall
{station}` CR then 1s, `unproto {unproto}` CR then 1s, `conv` CR then 1s,
the packet CR then 1s, `>{status_message}` CR then 1s, and the raw control
byte 0x03 with no wait. -/
theorem tnc_command_sequence
    (cfg : APRSConfig) (tm : TransportModel)
    (latlon : ℚ → Char × Char → String → String) (conv : ℤ → ℚ → ℚ)
    (extract : ℤ → Record) (lastGood : ℤ) (now : ℚ) (lastpost : Option ℤ) (t : ℤ)
    (hGate : check_post_conditions cfg lastpost lastGood now t = APRSStatus.SUCCESS)
    (hUnits : (extract t).usUnits = weewx_US)
    (hOpen : tm.openError = none) (hFail : tm.failAt = none) :
    (postData cfg tm latlon conv extract lastGood now lastpost t).2.2 =
      [SerialEvent.flushOutput, SerialEvent.flushInput,
       SerialEvent.write "\x03", SerialEvent.sleep 1,
       SerialEvent.write ("mycall " ++ cfg.station ++ "\r"), SerialEvent.sleep 1,
       SerialEvent.write ("unproto " ++ cfg.unproto ++ "\r"), SerialEvent.sleep 1,
       SerialEvent.write "conv\r", SerialEvent.sleep 1,
       SerialEvent.write (format_weather_data cfg latlon conv (extract t) ++ "\r"),
       SerialEvent.sleep 1,
       SerialEvent.write (">" ++ cfg.status_message ++ "\r"), SerialEvent.sleep 1,
       SerialEvent.write "\x03"] := by
  simp [postData, hGate, hUnits, hOpen, send_tnc_commands,
    run_commands_no_fail tm hFail, tnc_commands, command_events]

/-- Witness for claim C9 on the concrete fixture configuration and
record. -/
theorem tnc_command_sequence_witness :
    (postData cfg0 tmOk latlon0 conv0 extractUS 100 100 (some 42) 100).2.2 =
      [SerialEvent.flushOutput, SerialEvent.flushInput,
       SerialEvent.write "\x03", SerialEvent.sleep 1,
       SerialEvent.write "mycall W1AW\r", SerialEvent.sleep 1,
       SerialEvent.write "unproto APRS VIA WIDE2-2\r", SerialEvent.sleep 1,
       SerialEvent.write "conv\r", SerialEvent.sleep 1,
       SerialEvent.write "@151234z_180/005g009t072r005p030P120b00299h55L450.DsVP\r",
       SerialEvent.sleep 1,
       SerialEvent.write ">WeeWX station\r", SerialEvent.sleep 1,
       SerialEvent.write "\x03"] :=
  (tnc_command_sequence cfg0 tmOk latlon0 conv0 extractUS 100 100 (some 42) 100
    (by with_unfolding_all decide) (by with_unfolding_all decide) rfl rfl).trans
    (by with_unfolding_all decide)

end WeewxAprs
